import Mathlib

set_option maxRecDepth 100000

/-!
# Verification of the fall-detection and alerting pipeline

Shallow embedding of the core components of the elderly-monitoring
repository (alert rate limiter, fall state machine, multi-layer fall
detector, posture classifier, decision engine, feature extractor,
alert escalation), together with theorems settling the frozen claims
about them.

Python floats are modelled as exact rationals (`ℚ`); `time.time()` and
other wall-clock reads are modelled as explicit `now` parameters;
`collections.deque(maxlen=n)` is modelled as a list together with an
append operation that drops the oldest element once `n` is reached.
-/

/-- Embeds `deque(maxlen=n)` append: add `x` at the back, dropping from the
front once the length would exceed `n`. -/
def appendMax {α : Type} (n : ℕ) (xs : List α) (x : α) : List α :=
  let ys := xs ++ [x]
  ys.drop (ys.length - n)

/-- Embeds `np.mean` over a list of rationals (call sites guard against the
empty list, on which `0 / 0 = 0` stands in for numpy's NaN). -/
def listMean (l : List ℚ) : ℚ := l.sum / l.length

/-- Embeds `np.var` over a list of rationals: the mean squared deviation from
the mean. -/
def listVar (l : List ℚ) : ℚ := listMean (l.map (fun x => (x - listMean l) ^ 2))

/-- Embeds `np.min` over a list of rationals (call sites guard nonemptiness). -/
def listMin : List ℚ → ℚ
  | [] => 0
  | x :: xs => xs.foldl min x

/-- Embeds `np.max` over a list of rationals (call sites guard nonemptiness). -/
def listMax : List ℚ → ℚ
  | [] => 0
  | x :: xs => xs.foldl max x

namespace Alerts

/-- Embeds `AlertType` enum from `src/alerts/multi_level_alert_system.py`. -/
inductive AlertType where
  | FALL_DETECTED
  | PRE_FALL_WARNING
  | HEALTH_ANOMALY
  | DEVICE_OFFLINE
  | BATTERY_LOW
  | MEDICATION_MISSED
  | EMERGENCY
deriving DecidableEq

/-- Embeds `AlertLevel` enum (alert severity levels). -/
inductive AlertLevel where
  | INFO
  | WARNING
  | CRITICAL
  | EMERGENCY
deriving DecidableEq

/-- Embeds `AlertChannel` enum (alert delivery channels). -/
inductive AlertChannel where
  | LOCAL_BUZZER
  | MOBILE_NOTIFICATION
  | EMAIL
  | SMS
  | WEB_SOCKET
  | VOICE_CALL
deriving DecidableEq

/-- State of `AlertRateLimiter`: the two sliding windows are deques of
`(timestamp, alert_type)` pairs, oldest first, with `maxlen` equal to
the corresponding cap. -/
structure AlertRateLimiter where
  max_per_minute : ℕ
  max_per_hour : ℕ
  minute_alerts : List (ℚ × AlertType)
  hour_alerts : List (ℚ × AlertType)
deriving DecidableEq

namespace AlertRateLimiter

/-- Embeds `AlertRateLimiter.__init__` with its default caps (5/minute, 50/hour). -/
def init : AlertRateLimiter :=
  { max_per_minute := 5, max_per_hour := 50, minute_alerts := [], hour_alerts := [] }

/-- One `while` loop of `_clean_old_alerts`: pop entries from the front
while the front entry is older than `window` seconds. -/
def cleanWindow (window : ℚ) (now : ℚ) : List (ℚ × AlertType) → List (ℚ × AlertType)
  | [] => []
  | (t, a) :: rest =>
      if now - t > window then cleanWindow window now rest else (t, a) :: rest

/-- Embeds `AlertRateLimiter._clean_old_alerts`: cleans the 60-second and
3600-second windows. -/
def clean_old_alerts (rl : AlertRateLimiter) (now : ℚ) : AlertRateLimiter :=
  { rl with
    minute_alerts := cleanWindow 60 now rl.minute_alerts
    hour_alerts := cleanWindow 3600 now rl.hour_alerts }

/-- Embeds `AlertRateLimiter.can_send_alert`, with `time.time()` passed in as
`now`.  Returns the `(can_send, reason)` pair together with the limiter
state after `_clean_old_alerts` (the only mutation it performs).  Note
the order of the checks in the source: both rate-limit checks run
before the emergency-bypass check. -/
def can_send_alert (rl : AlertRateLimiter) (alert_type : AlertType) (now : ℚ) :
    (Bool × String) × AlertRateLimiter :=
  let rl := rl.clean_old_alerts now
  if rl.minute_alerts.length ≥ rl.max_per_minute then
    ((false, "Rate limit exceeded: max alerts per minute"), rl)
  else if rl.hour_alerts.length ≥ rl.max_per_hour then
    ((false, "Rate limit exceeded: max alerts per hour"), rl)
  else if alert_type = AlertType.EMERGENCY then
    ((true, "Emergency alert bypasses rate limits"), rl)
  else
    ((true, "Rate limits OK"), rl)

/-- Embeds `AlertRateLimiter.record_alert`, with `time.time()` passed in as
`now`: appends to both deques (each bounded by its `maxlen`). -/
def record_alert (rl : AlertRateLimiter) (alert_type : AlertType) (now : ℚ) :
    AlertRateLimiter :=
  { rl with
    minute_alerts := appendMax rl.max_per_minute rl.minute_alerts (now, alert_type)
    hour_alerts := appendMax rl.max_per_hour rl.hour_alerts (now, alert_type) }

end AlertRateLimiter

/-- A metadata value stored in an alert's free-form `metadata` dict. -/
inductive MetaValue where
  | str (s : String)
  | num (q : ℚ)
deriving DecidableEq

/-- The `Alert` dataclass. -/
structure Alert where
  id : String
  type : AlertType
  level : AlertLevel
  message : String
  patient_id : String
  timestamp : ℚ
  acknowledged : Bool
  escalated : Bool
  channels_used : List AlertChannel
  metadata : List (String × MetaValue)
deriving DecidableEq

/-- One escalation step of an alert type's escalation plan: a delay in
seconds, a channel set, and an optional condition string. -/
structure EscalationStep where
  delay : ℚ
  channels : List AlertChannel
  condition : Option String
deriving DecidableEq

/-- Embeds `AlertEscalationManager._initialize_escalation_rules` together with
the `escalation_rules.get(alert.type, [])` lookup of
`get_escalation_plan`: alert types without an entry get the empty
plan. -/
def escalation_rules : AlertType → List EscalationStep
  | AlertType.FALL_DETECTED =>
      [{ delay := 0,
         channels := [AlertChannel.LOCAL_BUZZER, AlertChannel.MOBILE_NOTIFICATION],
         condition := none },
       { delay := 60,
         channels := [AlertChannel.EMAIL, AlertChannel.WEB_SOCKET],
         condition := some "not_acknowledged" },
       { delay := 300,
         channels := [AlertChannel.SMS],
         condition := some "not_acknowledged" },
       { delay := 600,
         channels := [AlertChannel.VOICE_CALL],
         condition := some "not_acknowledged" }]
  | AlertType.EMERGENCY =>
      [{ delay := 0,
         channels := [AlertChannel.LOCAL_BUZZER, AlertChannel.MOBILE_NOTIFICATION,
                      AlertChannel.SMS, AlertChannel.EMAIL, AlertChannel.WEB_SOCKET],
         condition := none },
       { delay := 30,
         channels := [AlertChannel.VOICE_CALL],
         condition := some "not_acknowledged" }]
  | AlertType.HEALTH_ANOMALY =>
      [{ delay := 0,
         channels := [AlertChannel.MOBILE_NOTIFICATION, AlertChannel.WEB_SOCKET],
         condition := none },
       { delay := 300,
         channels := [AlertChannel.EMAIL],
         condition := some "not_acknowledged" }]
  | AlertType.PRE_FALL_WARNING =>
      [{ delay := 0,
         channels := [AlertChannel.LOCAL_BUZZER, AlertChannel.MOBILE_NOTIFICATION],
         condition := none }]
  | _ => []

/-- Embeds `AlertEscalationManager.should_escalate`: the `condition` strings
recognised by the source are `"not_acknowledged"` and
`"not_escalated"`; `None` means always escalate, anything else means
never. -/
def should_escalate (a : Alert) (step : EscalationStep) : Bool :=
  match step.condition with
  | none => true
  | some c =>
      if c = "not_acknowledged" then !a.acknowledged
      else if c = "not_escalated" then !a.escalated
      else false

/-- The `active_alerts` dict of `MultiLevelAlertSystem`: an association
list from alert id to alert (keys unique in the source). -/
def lookupAlert (s : List (String × Alert)) (alert_id : String) : Option Alert :=
  (s.find? (fun p => p.1 = alert_id)).map (fun p => p.2)

/-- The in-place mutation performed by `acknowledge_alert` on the alert
object stored under `alert_id`. -/
def setAcknowledged (a : Alert) (acknowledged_by : String) (now : ℚ) : Alert :=
  { a with acknowledged := true,
           metadata := a.metadata ++
             [("acknowledged_by", MetaValue.str acknowledged_by),
              ("acknowledged_time", MetaValue.num now)] }

/-- Embeds `MultiLevelAlertSystem.acknowledge_alert`, with `time.time()`
passed in as `now`.  Returns the `(acknowledged, new active-alert map)`
pair.  The `_cancel_pending_escalations` call it makes only touches
`escalation_timers`, a dict that no code path ever populates
(`_start_escalation` stores its tasks in `background_tasks` instead),
so it never changes the alert map. -/
def acknowledge_alert (s : List (String × Alert)) (alert_id : String)
    (acknowledged_by : String) (now : ℚ) : Bool × List (String × Alert) :=
  if (lookupAlert s alert_id).isSome then
    (true, s.map (fun p =>
      if p.1 = alert_id then (p.1, setAcknowledged p.2 acknowledged_by now) else p))
  else
    (false, s)

/-- The body of `MultiLevelAlertSystem._scheduled_escalation` after its
`asyncio.sleep(delay)`: re-checks that the alert is still active and
that its condition still calls for escalation, and only then executes
the step's channel sends.  Returns the list of channels the step sends
through (empty when the step does not execute).  The Python task holds
a reference to the very alert object stored in `active_alerts` (the
same object `acknowledge_alert` mutates), so the current value of that
object is recovered here by looking the id up in the map. -/
def scheduled_escalation (s : List (String × Alert)) (alert_id : String)
    (step : EscalationStep) : List AlertChannel :=
  match lookupAlert s alert_id with
  | some alert => if should_escalate alert step then step.channels else []
  | none => []

end Alerts

namespace StateMachine

/-- State of `FallStateMachine` (`src/decision_engine/state_machine.py`):
only the fields mutated after `__init__`; the numeric parameters set in
`__init__` and never reassigned are the constants below. -/
structure FallStateMachine where
  state : String
  fall_timer : ℕ
  inactivity_count : ℕ
  instability_timer : ℕ
  risk_state : String
  risk_state_timer : ℕ
deriving DecidableEq

namespace FallStateMachine

/-- Embeds `self.confirmation_window = 5`. -/
def confirmation_window : ℕ := 5

/-- Embeds `self.min_inactivity_window = 3`. -/
def min_inactivity_window : ℕ := 3

/-- Embeds `self.low_risk_threshold = 0.3`. -/
def low_risk_threshold : ℚ := 0.3

/-- Embeds `self.medium_risk_threshold = 0.6`. -/
def medium_risk_threshold : ℚ := 0.6

/-- Embeds `self.high_risk_threshold = 0.8`. -/
def high_risk_threshold : ℚ := 0.8

/-- Embeds `self.risk_persistence_window = 2`. -/
def risk_persistence_window : ℕ := 2

/-- Embeds `FallStateMachine.__init__` (mutable fields). -/
def init : FallStateMachine :=
  { state := "NORMAL", fall_timer := 0, inactivity_count := 0,
    instability_timer := 0, risk_state := "LOW", risk_state_timer := 0 }

/-- Embeds `FallStateMachine._update_risk_state`: maps the instability score to
a level via the three thresholds, then commits it with persistence —
upward changes immediately, downward ones guarded by the
`risk_state_timer >= risk_persistence_window` check (which, in the
source, runs after `risk_state_timer` has just been reset to 1). -/
def update_risk_state (m : FallStateMachine) (instability_risk : ℚ) : FallStateMachine :=
  let current_risk_level :=
    if instability_risk < low_risk_threshold then "LOW"
    else if instability_risk < medium_risk_threshold then "MEDIUM"
    else if instability_risk < high_risk_threshold then "HIGH"
    else "CRITICAL"
  if current_risk_level = m.risk_state then
    { m with risk_state_timer := m.risk_state_timer + 1 }
  else
    let m' := { m with risk_state_timer := 1 }
    if (current_risk_level = "MEDIUM" ∧ m'.risk_state = "LOW") ∨
       (current_risk_level = "HIGH" ∧ (m'.risk_state = "LOW" ∨ m'.risk_state = "MEDIUM")) ∨
       current_risk_level = "CRITICAL" then
      { m' with risk_state := current_risk_level, risk_state_timer := 1 }
    else if m'.risk_state_timer ≥ risk_persistence_window then
      { m' with risk_state := current_risk_level, risk_state_timer := 1 }
    else
      m'

/-- Embeds `FallStateMachine.update`: the per-tick transition function.  The
Python method returns `self.state`; here the whole updated machine is
returned and the state is read off the `state` field. -/
def update (m : FallStateMachine) (spike : Bool) (posture : String) (inactive : Bool)
    (post_fall_state : Bool) (instability_risk : ℚ) : FallStateMachine :=
  let m := m.update_risk_state instability_risk
  if m.state = "NORMAL" then
    if spike then { m with state := "POSSIBLE_FALL", fall_timer := 0, inactivity_count := 0 }
    else if m.risk_state = "HIGH" then { m with state := "PRE_FALL_WARNING" }
    else if m.risk_state = "MEDIUM" then { m with state := "MONITORING" }
    else m
  else if m.state = "MONITORING" then
    if spike then { m with state := "POSSIBLE_FALL", fall_timer := 0, inactivity_count := 0 }
    else if m.risk_state = "LOW" then { m with state := "NORMAL" }
    else if m.risk_state = "HIGH" then { m with state := "PRE_FALL_WARNING" }
    else m
  else if m.state = "PRE_FALL_WARNING" then
    if spike then { m with state := "POSSIBLE_FALL", fall_timer := 0, inactivity_count := 0 }
    else if m.risk_state = "LOW" then { m with state := "NORMAL" }
    else if m.risk_state = "MEDIUM" then { m with state := "MONITORING" }
    else m
  else if m.state = "POSSIBLE_FALL" then
    let m := { m with fall_timer := m.fall_timer + 1 }
    if posture = "lying" ∧ inactive = true then
      let m := { m with inactivity_count := m.inactivity_count + 1 }
      if m.inactivity_count ≥ min_inactivity_window then
        { m with state := "CONFIRMED_FALL" }
      else m
    else if post_fall_state = true ∧ m.fall_timer ≥ 2 then
      { m with state := "CONFIRMED_FALL" }
    else if m.fall_timer > confirmation_window then
      { m with state := "NORMAL", inactivity_count := 0 }
    else m
  else if m.state = "CONFIRMED_FALL" then
    { m with state := "ALERT" }
  else if m.state = "ALERT" then
    if m.fall_timer > confirmation_window + 10 then
      { m with state := "NORMAL", fall_timer := 0, inactivity_count := 0, risk_state_timer := 0 }
    else m
  else m

end FallStateMachine

/-- One tick's worth of inputs to `FallStateMachine.update`. -/
structure SMInput where
  spike : Bool
  posture : String
  inactive : Bool
  post_fall_state : Bool
  instability_risk : ℚ
deriving DecidableEq

/-- Feed a list of per-tick inputs through `FallStateMachine.update`. -/
def run (m : FallStateMachine) (l : List SMInput) : FallStateMachine :=
  l.foldl (fun m i => m.update i.spike i.posture i.inactive i.post_fall_state i.instability_risk) m

/-- A tick with a detector spike and otherwise neutral inputs. -/
def iSpike : SMInput :=
  { spike := true, posture := "standing", inactive := false,
    post_fall_state := false, instability_risk := 0 }

/-- A tick with lying posture and confirmed inactivity. -/
def iLying : SMInput :=
  { spike := false, posture := "lying", inactive := true,
    post_fall_state := false, instability_risk := 0 }

/-- A neutral tick: no spike, standing, active, no post-fall flag. -/
def iNeutral : SMInput :=
  { spike := false, posture := "standing", inactive := false,
    post_fall_state := false, instability_risk := 0 }

/-- The machine state right after a spike has moved it into
POSSIBLE_FALL (fall timer and inactivity count freshly reset). -/
def pfStart : FallStateMachine :=
  { FallStateMachine.init with state := "POSSIBLE_FALL" }

end StateMachine

namespace Detection

/-- Embeds `Posture` enum from `src/detection/posture_classifier.py`. -/
inductive Posture where
  | STANDING
  | SITTING
  | LYING
  | FALLING
  | UNKNOWN
deriving DecidableEq

namespace PostureClassifier

/-- Embeds `self.standing_threshold = 8.0`. -/
def standing_threshold : ℚ := 8

/-- Embeds `self.sitting_threshold = 6.0`. -/
def sitting_threshold : ℚ := 6

/-- Embeds `self.lying_threshold = 4.0`. -/
def lying_threshold : ℚ := 4

/-- Embeds `self.fall_threshold = 15.0`. -/
def fall_threshold : ℚ := 15

/-- Embeds `PostureClassifier.classify_posture`.  The source computes
`magnitude = np.sqrt(ax**2 + ay**2 + az**2)` and
`motion_magnitude = np.sqrt(gx**2 + gy**2 + gz**2)` and compares them
with the nonnegative thresholds above; here the comparisons are done on
the squares, which is equivalent because `sqrt s ≥ t ↔ s ≥ t^2` and
`sqrt s > t ↔ s > t^2` for `t ≥ 0`. -/
def classify_posture (ax ay az gx gy gz : ℚ) : Posture :=
  let magnitudeSq := ax ^ 2 + ay ^ 2 + az ^ 2
  let motionSq := gx ^ 2 + gy ^ 2 + gz ^ 2
  if motionSq > fall_threshold ^ 2 then Posture.FALLING
  else if magnitudeSq ≥ standing_threshold ^ 2 then Posture.STANDING
  else if magnitudeSq ≥ sitting_threshold ^ 2 then Posture.SITTING
  else if magnitudeSq ≥ lying_threshold ^ 2 then Posture.LYING
  else Posture.UNKNOWN

end PostureClassifier

/-- The feature values read (via `dict.get` with constant defaults) by
the threshold detector, the post-fall validator and the combination
logic in `src/detection/multi_layer_fall_detection.py`.  A Python
feature dict with a key missing behaves exactly like this record with
the field set to that constant default, so quantifying over all records
covers all dicts. -/
structure Features where
  accel_magnitude_max : ℚ
  accel_magnitude_mean : ℚ
  jerk_magnitude_max : ℚ
  pitch_mean : ℚ
  roll_mean : ℚ
  orientation_stability : ℚ
  activity_level : String
  inactivity_duration : ℚ
  anomaly_score : ℚ
  accel_x_mean : ℚ
  accel_y_mean : ℚ
  accel_z_mean : ℚ
  hr_anomaly_detected : Bool
  spo2_anomaly_detected : Bool
  temp_anomaly_detected : Bool
deriving DecidableEq

/-- The parts of the threshold layer's `detection_result` payload that
later code reads. -/
structure ThresholdResult where
  impact : Bool
  orientation_change : Bool
  inactivity : Bool
  confidence : ℚ
  fall_type : Option String
  severity : Option String
deriving DecidableEq

/-- State of `ThresholdFallDetector`: `last_fall_time` is the only
field mutated by `detect_fall` (the `impact_detected` /
`orientation_change_detected` / `inactivity_start_time` fields set in
`__init__` are never read). -/
structure ThresholdFallDetector where
  last_fall_time : ℚ
deriving DecidableEq

namespace ThresholdFallDetector

/-- Embeds `self.fall_threshold_accel = 2.5`. -/
def fall_threshold_accel : ℚ := 2.5

/-- Embeds `self.orientation_threshold = 60`. -/
def orientation_threshold : ℚ := 60

/-- Embeds `self.inactivity_threshold = 5.0`. -/
def inactivity_threshold : ℚ := 5

/-- Embeds `self.fall_cooldown = 10`. -/
def fall_cooldown : ℚ := 10

/-- Embeds `ThresholdFallDetector.__init__`: `last_fall_time = 0`. -/
def init : ThresholdFallDetector := { last_fall_time := 0 }

/-- Embeds `ThresholdFallDetector._check_impact`. -/
def check_impact (f : Features) : Bool :=
  f.accel_magnitude_max > fall_threshold_accel ∨ f.jerk_magnitude_max > 15

/-- Embeds `ThresholdFallDetector._check_orientation_change`. -/
def check_orientation_change (f : Features) : Bool :=
  |f.pitch_mean| + |f.roll_mean| > orientation_threshold ∨ f.orientation_stability > 30

/-- Embeds `ThresholdFallDetector._check_inactivity`. -/
def check_inactivity (f : Features) : Bool :=
  (f.activity_level = "very_low" ∨ f.activity_level = "low") ∧
    f.inactivity_duration > inactivity_threshold

/-- Embeds `ThresholdFallDetector._classify_fall_type` (both arms of the
source's first conditional return `SIDE_FALL`). -/
def classify_fall_type (f : Features) : String :=
  if |f.accel_x_mean| > |f.accel_y_mean| ∧ |f.accel_x_mean| > |f.accel_z_mean| then "side_fall"
  else if f.accel_y_mean < -1 then "forward_fall"
  else if f.accel_y_mean > 1 then "backward_fall"
  else if |f.pitch_mean| > 45 ∨ |f.roll_mean| > 45 then "vertical_fall"
  else "unknown_fall"

/-- Embeds `ThresholdFallDetector._determine_severity`. -/
def determine_severity (f : Features) (confidence : ℚ) : String :=
  let severity_score := f.accel_magnitude_max / 5 + f.jerk_magnitude_max / 20 +
    f.anomaly_score + confidence
  if severity_score ≥ 3 then "critical"
  else if severity_score ≥ 2 then "high"
  else if severity_score ≥ 1 then "medium"
  else "low"

/-- Embeds `ThresholdFallDetector.detect_fall`, with `time.time()` passed in
as `now`.  Returns `(fall_detected, detection_result)` together with
the updated detector state. -/
def detect_fall (d : ThresholdFallDetector) (f : Features) (now : ℚ) :
    (Bool × ThresholdResult) × ThresholdFallDetector :=
  if now - d.last_fall_time < fall_cooldown then
    ((false, { impact := false, orientation_change := false, inactivity := false,
               confidence := 0, fall_type := none, severity := none }), d)
  else
    let impact_detected := check_impact f
    let orientation_change := check_orientation_change f
    let inactivity_detected := check_inactivity f
    let confidence : ℚ :=
      (if impact_detected then 0.4 else 0) +
      (if orientation_change then 0.3 else 0) +
      (if inactivity_detected then 0.3 else 0)
    if confidence ≥ 0.6 then
      ((true, { impact := impact_detected, orientation_change := orientation_change,
                inactivity := inactivity_detected, confidence := confidence,
                fall_type := some (classify_fall_type f),
                severity := some (determine_severity f confidence) }),
       { d with last_fall_time := now })
    else
      ((false, { impact := impact_detected, orientation_change := orientation_change,
                 inactivity := inactivity_detected, confidence := confidence,
                 fall_type := none, severity := none }), d)

end ThresholdFallDetector

namespace PostFallValidator

/-- Embeds `self.min_inactivity_duration = 3.0`. -/
def min_inactivity_duration : ℚ := 3

/-- Embeds `self.recovery_threshold = 0.5`. -/
def recovery_threshold : ℚ := 0.5

/-- Embeds `PostFallValidator._validate_inactivity`. -/
def validate_inactivity (f : Features) : Bool :=
  f.inactivity_duration ≥ min_inactivity_duration ∧
    (f.activity_level = "very_low" ∨ f.activity_level = "low")

/-- Embeds `PostFallValidator._validate_physiological_stress`. -/
def validate_physiological_stress (f : Features) : Bool :=
  f.hr_anomaly_detected ∨ f.spo2_anomaly_detected ∨ f.temp_anomaly_detected ∨
    f.anomaly_score > 1

/-- Embeds `PostFallValidator._check_recovery`. -/
def check_recovery (f : Features) : Bool :=
  (f.activity_level = "moderate" ∨ f.activity_level = "high") ∧
    f.accel_magnitude_mean > recovery_threshold

/-- Embeds `PostFallValidator.validate_fall`: returns
`(validated, confidence_adjustment)`; `validated` holds when the
validation confidence reaches 0.5, and the adjustment is the validation
confidence times 0.2 (the documented 20% cap). -/
def validate_fall (f : Features) : Bool × ℚ :=
  let validation_confidence : ℚ :=
    (if validate_inactivity f then 0.4 else 0) +
    (if validate_physiological_stress f then 0.3 else 0) +
    (if check_recovery f then 0 else 0.3)
  (validation_confidence ≥ 0.5, validation_confidence * 0.2)

end PostFallValidator

namespace MultiLayerFallDetector

/-- Embeds `MultiLayerFallDetector._combine_detections`: the fixed 0.4/0.6
layer weighting.  `threshold_confidence` / `ml_confidence` are zeroed
when the corresponding layer did not detect, exactly as in the
source. -/
def combine_detections (threshold_detected : Bool) (threshold_result_confidence : ℚ)
    (ml_detected : Bool) (ml_result_confidence : ℚ) : Bool × ℚ :=
  let threshold_weight : ℚ := 0.4
  let ml_weight : ℚ := 0.6
  let threshold_confidence := if threshold_detected then threshold_result_confidence else 0
  let ml_confidence := if ml_detected then ml_result_confidence else 0
  let combined_confidence := threshold_confidence * threshold_weight +
    ml_confidence * ml_weight
  let combined_detected := (threshold_detected ∧ threshold_confidence > 0.5) ∨
    (ml_detected ∧ ml_confidence > 0.5)
  (combined_detected, combined_confidence)

/-- The combination-and-final-decision portion of
`MultiLayerFallDetector.process_features` (lines 481–519): combines the
two layer outcomes, runs post-fall validation when a fall is plausible,
and produces `(final_decision = "fall_detected", reported confidence)`.
The two layers' detection outcomes are inputs because the scored
layer's prediction includes simulated model noise
(`np.random.normal`). -/
def process_features_combine (threshold_detected : Bool) (threshold_result_confidence : ℚ)
    (ml_detected : Bool) (ml_result_confidence : ℚ) (f : Features) : Bool × ℚ :=
  let cd := combine_detections threshold_detected threshold_result_confidence
    ml_detected ml_result_confidence
  let combined_detected := cd.1
  let combined_confidence :=
    if combined_detected then
      let v := PostFallValidator.validate_fall f
      if v.1 then min 1 (cd.2 + v.2) else cd.2
    else cd.2
  if combined_detected ∧ combined_confidence ≥ 0.6 then
    (true, combined_confidence)
  else
    (false, 1 - combined_confidence)

end MultiLayerFallDetector

/-- Embeds `DecisionType` enum from `src/detection/decision_engine.py`. -/
inductive DecisionType where
  | FALL_DETECTED
  | PRE_FALL_WARNING
  | HEALTH_ALERT
  | EMERGENCY_RESPONSE
  | FALSE_POSITIVE
  | NO_ACTION
deriving DecidableEq

/-- A `DecisionRule` after `evaluate` has run: its fixed weight and the
`last_triggered` / `confidence` attributes that `_combine_evidence`
reads. -/
structure EvaluatedRule where
  name : String
  weight : ℚ
  last_triggered : Bool
  confidence : ℚ
deriving DecidableEq

namespace DecisionEngine

/-- Embeds `self.ml_weight = 0.6`. -/
def ml_weight : ℚ := 0.6

/-- Embeds `self.rule_weight = 0.4`. -/
def rule_weight : ℚ := 0.4

/-- Embeds `self.threshold_adjustment_factor = 1.0` (initial value). -/
def initial_threshold_adjustment_factor : ℚ := 1

/-- The rule-confidence computation inside
`DecisionEngine._combine_evidence`: the weighted mean confidence of the
triggered rules (0 when none triggered). -/
def rule_confidence_of (rule_results : List EvaluatedRule) : ℚ :=
  let triggered := rule_results.filter (fun r => r.last_triggered)
  if triggered.isEmpty then 0
  else (triggered.map (fun r => r.confidence * r.weight)).sum /
    (triggered.map (fun r => r.weight)).sum

/-- Embeds `DecisionEngine._combine_evidence`: returns
`(combined_score, ml_confidence, rule_confidence)`. -/
def combine_evidence (ml_confidence : ℚ) (rule_results : List EvaluatedRule)
    (threshold_adjustment_factor : ℚ) : ℚ × ℚ × ℚ :=
  let rule_confidence := rule_confidence_of rule_results
  let combined_score := (ml_confidence * ml_weight + rule_confidence * rule_weight) *
    threshold_adjustment_factor
  (min 1 combined_score, ml_confidence, rule_confidence)

/-- Embeds `DecisionEngine._adjust_thresholds`: acts on the last (up to) 5
recorded decisions once at least 3 are present; two or more recent
`FALSE_POSITIVE`s multiply the factor by 1.1 (capped at 2.0), zero
recent `FALSE_POSITIVE`s multiply it by 0.95 (floored at 0.5). -/
def adjust_thresholds (recent_decisions : List DecisionType)
    (threshold_adjustment_factor : ℚ) : ℚ :=
  let recent := recent_decisions.drop (recent_decisions.length - 5)
  if recent.length ≥ 3 then
    let false_positive_count :=
      (recent.filter (fun d => d = DecisionType.FALSE_POSITIVE)).length
    if false_positive_count ≥ 2 then
      min 2 (threshold_adjustment_factor * 1.1)
    else if false_positive_count = 0 then
      max 0.5 (threshold_adjustment_factor * 0.95)
    else threshold_adjustment_factor
  else threshold_adjustment_factor

end DecisionEngine

/-- Models `Posture.value` (the `.value` of the Python enum member). -/
def Posture.value : Posture → String
  | Posture.STANDING => "standing"
  | Posture.SITTING => "sitting"
  | Posture.LYING => "lying"
  | Posture.FALLING => "falling"
  | Posture.UNKNOWN => "unknown"

/-- Models `str(...)` applied to a Python enum member, as done in
`FeatureExtractor.get_current_features` (which calls `str` on the
posture instead of reading `.value`). -/
def Posture.pyStr : Posture → String
  | Posture.STANDING => "Posture.STANDING"
  | Posture.SITTING => "Posture.SITTING"
  | Posture.LYING => "Posture.LYING"
  | Posture.FALLING => "Posture.FALLING"
  | Posture.UNKNOWN => "Posture.UNKNOWN"

/-- State of `InactivityDetector`
(`src/detection/inactivity_detector.py`). -/
structure InactivityDetector where
  inactivity_threshold : ℚ
  window_size : ℕ
  magnitude_buffer : List ℚ
  timestamp_buffer : List ℚ
  inactivity_start_time : Option ℚ
  is_inactive : Bool
  inactivity_duration : ℚ
deriving DecidableEq

namespace InactivityDetector

/-- Embeds `InactivityDetector.__init__` with its defaults (threshold 0.5,
window 30). -/
def init : InactivityDetector :=
  { inactivity_threshold := 0.5, window_size := 30, magnitude_buffer := [],
    timestamp_buffer := [], inactivity_start_time := none, is_inactive := false,
    inactivity_duration := 0 }

/-- Embeds `InactivityDetector.update`.  When the second branch fires the
source reads `self.inactivity_start_time`, which is always set there
because `is_inactive = true` only ever holds together with a set start
time; `getD 0` renders that invariant. -/
def update (d : InactivityDetector) (acceleration_magnitude : ℚ) (timestamp : ℚ) :
    Bool × InactivityDetector :=
  let d := { d with
    magnitude_buffer := appendMax d.window_size d.magnitude_buffer acceleration_magnitude
    timestamp_buffer := appendMax d.window_size d.timestamp_buffer timestamp }
  if d.magnitude_buffer.length < d.window_size then
    (false, d)
  else
    let avg_magnitude := listMean d.magnitude_buffer
    let currently_inactive := avg_magnitude < d.inactivity_threshold
    let d :=
      if currently_inactive ∧ d.is_inactive = false then
        { d with inactivity_start_time := some timestamp, is_inactive := true }
      else if ¬currently_inactive ∧ d.is_inactive = true then
        { d with inactivity_duration := timestamp - (d.inactivity_start_time.getD 0),
                 is_inactive := false, inactivity_start_time := none }
      else if currently_inactive ∧ d.is_inactive = true then
        { d with inactivity_duration := timestamp - (d.inactivity_start_time.getD 0) }
      else d
    (d.is_inactive, d)

end InactivityDetector

/-- State of `PreFallInstabilityDetector`
(`src/detection/pre_fall_instability.py`). -/
structure PreFallInstabilityDetector where
  window_size : ℕ
  jerk_threshold : ℚ
  variance_threshold : ℚ
  instability_threshold : ℚ
  accel_buffer : List (ℚ × ℚ × ℚ)
  timestamp_buffer : List ℚ
  prev_ax : ℚ
  prev_ay : ℚ
  prev_az : ℚ
  prev_timestamp : ℚ
  jerk_history : List ℚ
  variance_history : List ℚ
deriving DecidableEq

namespace PreFallInstabilityDetector

/-- Embeds `PreFallInstabilityDetector.__init__` with its defaults
(window 50, jerk threshold 10, variance threshold 2, instability
threshold 0.7). -/
def init : PreFallInstabilityDetector :=
  { window_size := 50, jerk_threshold := 10, variance_threshold := 2,
    instability_threshold := 0.7, accel_buffer := [], timestamp_buffer := [],
    prev_ax := 0, prev_ay := 0, prev_az := 0, prev_timestamp := 0,
    jerk_history := [], variance_history := [] }

/-- Embeds `PreFallInstabilityDetector._calculate_instability_score`.
`sqrtQ` models `math.sqrt` (its values never influence any claim
proved in this file, so it is kept abstract). -/
def calculate_instability_score (d : PreFallInstabilityDetector) :
    ℚ × PreFallInstabilityDetector :=
  let variance_x := listVar (d.accel_buffer.map (fun t => t.1))
  let variance_y := listVar (d.accel_buffer.map (fun t => t.2.1))
  let variance_z := listVar (d.accel_buffer.map (fun t => t.2.2))
  let total_variance := variance_x + variance_y + variance_z
  let d := { d with variance_history := appendMax 10 d.variance_history total_variance }
  let avg_jerk := if d.jerk_history.isEmpty then 0 else listMean d.jerk_history
  let avg_variance := if d.variance_history.isEmpty then 0 else listMean d.variance_history
  let jerk_score := min 1 (avg_jerk / d.jerk_threshold)
  let variance_score := min 1 (avg_variance / d.variance_threshold)
  (0.6 * jerk_score + 0.4 * variance_score, d)

/-- Embeds `PreFallInstabilityDetector.update`.  `sqrtQ` models `math.sqrt`
abstractly; `timestamp` is the `time.time()` value the source falls
back to when no timestamp is supplied (`FeatureExtractor.update` calls
it without one). -/
def update (sqrtQ : ℚ → ℚ) (d : PreFallInstabilityDetector)
    (ax ay az timestamp : ℚ) : ℚ × PreFallInstabilityDetector :=
  let d : PreFallInstabilityDetector := { d with
    accel_buffer := appendMax d.window_size d.accel_buffer (ax, ay, az)
    timestamp_buffer := appendMax d.window_size d.timestamp_buffer timestamp }
  let jerk_magnitude : ℚ :=
    if d.prev_timestamp > 0 then
      let dt := timestamp - d.prev_timestamp
      if dt > 0 then
        sqrtQ (((ax - d.prev_ax) / dt) ^ 2 + ((ay - d.prev_ay) / dt) ^ 2 +
          ((az - d.prev_az) / dt) ^ 2)
      else 0
    else 0
  let d : PreFallInstabilityDetector := { d with
    prev_ax := ax, prev_ay := ay, prev_az := az, prev_timestamp := timestamp,
    jerk_history := appendMax 10 d.jerk_history jerk_magnitude }
  if d.accel_buffer.length < d.window_size then
    (0, d)
  else
    calculate_instability_score d

end PreFallInstabilityDetector

/-- The `FeatureVector` dataclass of
`src/detection/feature_extraction.py` (the `risk_level` field is
assigned the numeric instability score by `_extract_features`). -/
structure FeatureVector where
  timestamp : ℚ
  ax : ℚ
  ay : ℚ
  az : ℚ
  gx : ℚ
  gy : ℚ
  gz : ℚ
  magnitude_mean : ℚ
  magnitude_std : ℚ
  magnitude_min : ℚ
  magnitude_max : ℚ
  magnitude_range : ℚ
  gyro_variance_x : ℚ
  gyro_variance_y : ℚ
  gyro_variance_z : ℚ
  gyro_variance_total : ℚ
  current_posture : String
  posture_transition_count : ℕ
  posture_stability_score : ℚ
  time_in_current_posture : ℚ
  inactivity_duration : ℚ
  inactivity_ratio : ℚ
  activity_level : String
  instability_risk : ℚ
  instability_trend : ℚ
  risk_level : ℚ
  jerk_magnitude : ℚ
  acceleration_energy : ℚ
  motion_smoothness : ℚ
deriving DecidableEq

/-- State of `FeatureExtractor`
(`src/detection/feature_extraction.py`). -/
structure FeatureExtractor where
  window_size : ℕ
  posture_window : ℕ
  accel_buffer : List (ℚ × ℚ × ℚ)
  gyro_buffer : List (ℚ × ℚ × ℚ)
  magnitude_buffer : List ℚ
  posture_history : List String
  posture_transition_times : List ℚ
  current_posture_start_time : ℚ
  inactivity_start_time : Option ℚ
  inactivity_periods : List ℚ
  inactivity_detector : InactivityDetector
  instability_detector : PreFallInstabilityDetector
  prev_ax : ℚ
  prev_ay : ℚ
  prev_az : ℚ
  prev_gx : ℚ
  prev_gy : ℚ
  prev_gz : ℚ
  prev_magnitude : ℚ
  start_time : ℚ
  sample_count : ℕ
deriving DecidableEq

namespace FeatureExtractor

/-- Embeds `FeatureExtractor.__init__` (default arguments: window 50, posture
window 10). -/
def init (window_size : ℕ := 50) (posture_window : ℕ := 10) : FeatureExtractor :=
  { window_size := window_size, posture_window := posture_window,
    accel_buffer := [], gyro_buffer := [], magnitude_buffer := [],
    posture_history := [], posture_transition_times := [],
    current_posture_start_time := 0, inactivity_start_time := none,
    inactivity_periods := [], inactivity_detector := InactivityDetector.init,
    instability_detector := PreFallInstabilityDetector.init,
    prev_ax := 0, prev_ay := 0, prev_az := 0, prev_gx := 0, prev_gy := 0,
    prev_gz := 0, prev_magnitude := 0, start_time := 0, sample_count := 0 }

/-- Embeds `FeatureExtractor._track_posture_transitions` (its computed
stability score is returned but discarded by the caller, so only the
state changes are kept). -/
def track_posture_transitions (fe : FeatureExtractor) (current_posture : String)
    (timestamp : ℚ) : FeatureExtractor :=
  let fe := { fe with
    posture_history := appendMax fe.posture_window fe.posture_history current_posture }
  if fe.posture_history.length > 1 then
    let prev_posture := fe.posture_history.getD (fe.posture_history.length - 2) ""
    if prev_posture ≠ current_posture then
      { fe with
        posture_transition_times := appendMax 20 fe.posture_transition_times timestamp
        current_posture_start_time := timestamp }
    else fe
  else
    { fe with current_posture_start_time := timestamp }

/-- Embeds `FeatureExtractor._track_inactivity`. -/
def track_inactivity (fe : FeatureExtractor) (inactive : Bool) (timestamp : ℚ) :
    FeatureExtractor :=
  if inactive then
    match fe.inactivity_start_time with
    | none => { fe with inactivity_start_time := some timestamp }
    | some _ => fe
  else
    match fe.inactivity_start_time with
    | some st =>
        { fe with inactivity_periods := fe.inactivity_periods ++ [timestamp - st],
                  inactivity_start_time := none }
    | none => fe

/-- Embeds `FeatureExtractor._extract_features`: assembles the
`FeatureVector` from the current sample and the buffered history.
`sqrtQ` models `math.sqrt`/`np.std`'s square root abstractly (no claim
proved here depends on its values).  The `inactive` argument is,
as in the source, not read. -/
def extract_features (sqrtQ : ℚ → ℚ) (fe : FeatureExtractor)
    (ax ay az gx gy gz magnitude : ℚ) (current_posture : String) (_inactive : Bool)
    (instability_risk : ℚ) (timestamp : ℚ) : FeatureVector :=
  let n := fe.magnitude_buffer.length
  let magnitude_mean :=
    if n ≥ 2 then listMean fe.magnitude_buffer
    else if n = 1 then fe.magnitude_buffer.headD 0
    else magnitude
  let magnitude_std :=
    if n ≥ 2 then sqrtQ (listVar fe.magnitude_buffer)
    else if n = 1 then 0
    else magnitude
  let magnitude_min :=
    if n ≥ 2 then listMin fe.magnitude_buffer
    else if n = 1 then fe.magnitude_buffer.headD 0
    else magnitude
  let magnitude_max :=
    if n ≥ 2 then listMax fe.magnitude_buffer
    else if n = 1 then fe.magnitude_buffer.headD 0
    else magnitude
  let magnitude_range :=
    if n ≥ 2 then magnitude_max - magnitude_min
    else if n = 1 then 0
    else magnitude
  let ng := fe.gyro_buffer.length
  let gyro_variance_x := if ng ≥ 2 then listVar (fe.gyro_buffer.map (fun t => t.1)) else 0
  let gyro_variance_y := if ng ≥ 2 then listVar (fe.gyro_buffer.map (fun t => t.2.1)) else 0
  let gyro_variance_z := if ng ≥ 2 then listVar (fe.gyro_buffer.map (fun t => t.2.2)) else 0
  let gyro_variance_total :=
    if ng ≥ 2 then
      listVar (fe.gyro_buffer.flatMap (fun t => [t.1, t.2.1, t.2.2]))
    else 0
  let posture_transition_count := fe.posture_transition_times.length
  let posture_stability_score :=
    if fe.posture_history.length ≥ fe.posture_window then
      let recent_postures :=
        fe.posture_history.drop (fe.posture_history.length - fe.posture_window)
      let unique_postures := recent_postures.dedup.length
      ((fe.posture_window : ℚ) - unique_postures + 1) / fe.posture_window
    else 1
  let time_in_current_posture := timestamp - fe.current_posture_start_time
  let inactivity_duration :=
    match fe.inactivity_start_time with
    | some st => timestamp - st
    | none => 0
  let total_samples := fe.magnitude_buffer.length
  let inactivity_ratio :=
    if total_samples > 0 then
      let k := min 10 total_samples
      let recent_inactive := ((List.range k).filter (fun i =>
        i < fe.inactivity_periods.length ∧
          fe.inactivity_periods.getD (fe.inactivity_periods.length - (i + 1)) 0 > 1)).length
      (recent_inactive : ℚ) / k
    else 0
  let activity_level :=
    if inactivity_duration > 2 then "SEDENTARY"
    else if inactivity_duration > 0.5 then "LOW"
    else "ACTIVE"
  let risk_level := instability_risk
  let instability_trend :=
    if fe.magnitude_buffer.length ≥ 5 then
      let recent_magnitudes := fe.magnitude_buffer.drop (fe.magnitude_buffer.length - 5)
      let recent_variance := listVar recent_magnitudes
      let older_magnitudes :=
        if fe.magnitude_buffer.length ≥ 10 then
          (fe.magnitude_buffer.drop (fe.magnitude_buffer.length - 10)).take 5
        else []
      if ¬older_magnitudes.isEmpty then recent_variance - listVar older_magnitudes
      else 0
    else 0
  let dt : ℚ := 0.1
  let jerk_magnitude := sqrtQ (((ax - fe.prev_ax) / dt) ^ 2 +
    ((ay - fe.prev_ay) / dt) ^ 2 + ((az - fe.prev_az) / dt) ^ 2)
  let acceleration_energy : ℚ :=
    if fe.magnitude_buffer.length ≥ 2 then
      (fe.magnitude_buffer.map (fun m => m ^ 2)).sum / (fe.magnitude_buffer.length : ℚ)
    else magnitude ^ 2
  let motion_smoothness := if magnitude_std > 0 then 1 / (1 + magnitude_std) else 1
  { timestamp := timestamp, ax := ax, ay := ay, az := az, gx := gx, gy := gy, gz := gz,
    magnitude_mean := magnitude_mean, magnitude_std := magnitude_std,
    magnitude_min := magnitude_min, magnitude_max := magnitude_max,
    magnitude_range := magnitude_range,
    gyro_variance_x := gyro_variance_x, gyro_variance_y := gyro_variance_y,
    gyro_variance_z := gyro_variance_z, gyro_variance_total := gyro_variance_total,
    current_posture := current_posture,
    posture_transition_count := posture_transition_count,
    posture_stability_score := posture_stability_score,
    time_in_current_posture := time_in_current_posture,
    inactivity_duration := inactivity_duration, inactivity_ratio := inactivity_ratio,
    activity_level := activity_level, instability_risk := instability_risk,
    instability_trend := instability_trend, risk_level := risk_level,
    jerk_magnitude := jerk_magnitude, acceleration_energy := acceleration_energy,
    motion_smoothness := motion_smoothness }

/-- Embeds `FeatureExtractor.update` with all sensor values supplied (when
gyroscope values are omitted the source simulates them with random
noise — that path is modelled by passing explicit values — and when
the timestamp is omitted it uses `sample_count * 0.1`).  `now` is the
`time.time()` value read by the `instability_detector.update` call,
which is made without a timestamp.  Always constructs and returns a
`FeatureVector`: there is no not-ready branch. -/
def update (sqrtQ : ℚ → ℚ) (fe : FeatureExtractor) (ax ay az gx gy gz : ℚ)
    (timestamp : ℚ) (now : ℚ) : FeatureVector × FeatureExtractor :=
  let fe := if fe.start_time = 0 then { fe with start_time := timestamp } else fe
  let fe := { fe with
    accel_buffer := appendMax fe.window_size fe.accel_buffer (ax, ay, az)
    gyro_buffer := appendMax fe.window_size fe.gyro_buffer (gx, gy, gz) }
  let magnitude := sqrtQ (ax ^ 2 + ay ^ 2 + az ^ 2)
  let fe := { fe with
    magnitude_buffer := appendMax fe.window_size fe.magnitude_buffer magnitude }
  let ir := fe.instability_detector.update sqrtQ ax ay az now
  let instability_risk := ir.1
  let fe := { fe with instability_detector := ir.2 }
  let current_posture := (PostureClassifier.classify_posture ax ay az 0 0 0).value
  let ia := fe.inactivity_detector.update magnitude timestamp
  let inactive := ia.1
  let fe := { fe with inactivity_detector := ia.2 }
  let fe := track_posture_transitions fe current_posture timestamp
  let fe := track_inactivity fe inactive timestamp
  let features := extract_features sqrtQ fe ax ay az gx gy gz magnitude
    current_posture inactive instability_risk timestamp
  let fe := { fe with
    prev_ax := ax, prev_ay := ay, prev_az := az,
    prev_gx := gx, prev_gy := gy, prev_gz := gz,
    prev_magnitude := magnitude, sample_count := fe.sample_count + 1 }
  (features, fe)

/-- Embeds `FeatureExtractor.get_current_features`, with `time.time()` passed
in as `now`.  Returns `None` when fewer than 10 samples (a hard-coded
constant, not `window_size`) are buffered; otherwise recomputes the
sub-detectors on the latest buffered sample (mutating them, hence the
returned state) and extracts a feature vector. -/
def get_current_features (sqrtQ : ℚ → ℚ) (fe : FeatureExtractor) (now : ℚ) :
    Option FeatureVector × FeatureExtractor :=
  if fe.magnitude_buffer.length < 10 then
    (none, fe)
  else
    match fe.accel_buffer.getLast?, fe.gyro_buffer.getLast? with
    | some (ax, ay, az), some _ =>
        let magnitude := fe.magnitude_buffer.getLastD 0
        let ir := fe.instability_detector.update sqrtQ ax ay az now
        let fe := { fe with instability_detector := ir.2 }
        let current_posture := (PostureClassifier.classify_posture ax ay az 0 0 0).pyStr
        let ia := fe.inactivity_detector.update magnitude now
        let fe := { fe with inactivity_detector := ia.2 }
        let gl := fe.gyro_buffer.getLastD (0, 0, 0)
        let features := extract_features sqrtQ fe ax ay az gl.1 gl.2.1 gl.2.2 magnitude
          current_posture ia.1 ir.1 now
        (some features, fe)
    | _, _ => (none, fe)

end FeatureExtractor

end Detection

namespace Detection

/-- A square-root stand-in used to instantiate the abstract `sqrtQ`
parameter in closed statements (no statement in this file depends on
its values). -/
def sqrt0 : ℚ → ℚ := fun _ => 0

/-- Feed `n` constant samples `(3, 0, 4)` (explicit zero gyro) into the
extractor, with integer timestamps. -/
def feedConst (sqrtQ : ℚ → ℚ) (fe : FeatureExtractor) (n : ℕ) : FeatureExtractor :=
  (List.range n).foldl (fun s i => (s.update sqrtQ 3 0 4 0 0 0 (i : ℚ) (i : ℚ)).2) fe

end Detection

namespace Alerts

/-- A limiter state that has just recorded a burst of five alerts (the
per-minute cap) at time 90. -/
def limiterBurst : AlertRateLimiter :=
  ((((AlertRateLimiter.init.record_alert AlertType.FALL_DETECTED 90).record_alert
    AlertType.FALL_DETECTED 90).record_alert AlertType.FALL_DETECTED 90).record_alert
    AlertType.FALL_DETECTED 90).record_alert AlertType.FALL_DETECTED 90

end Alerts

namespace Detection

/-- A concrete feature record with a strong impact and a large
orientation change (two indicators firing), used to instantiate the
threshold-detector theorems. -/
def sampleFallFeatures : Features :=
  { accel_magnitude_max := 30, accel_magnitude_mean := 0, jerk_magnitude_max := 20,
    pitch_mean := 80, roll_mean := 10, orientation_stability := 40,
    activity_level := "high", inactivity_duration := 0, anomaly_score := 0,
    accel_x_mean := 0, accel_y_mean := 0, accel_z_mean := 0,
    hr_anomaly_detected := false, spo2_anomaly_detected := false,
    temp_anomaly_detected := false }

/-- A concrete feature record on which post-fall validation fires at
full confidence (sustained inactivity, physiological stress, no
recovery). -/
def sampleValidationFeatures : Features :=
  { accel_magnitude_max := 0, accel_magnitude_mean := 0, jerk_magnitude_max := 0,
    pitch_mean := 0, roll_mean := 0, orientation_stability := 0,
    activity_level := "low", inactivity_duration := 10, anomaly_score := 0,
    accel_x_mean := 0, accel_y_mean := 0, accel_z_mean := 0,
    hr_anomaly_detected := true, spo2_anomaly_detected := false,
    temp_anomaly_detected := false }

end Detection

namespace Alerts

/-- A concrete active FALL_DETECTED alert used to instantiate the
escalation theorems. -/
def sampleAlert : Alert :=
  { id := "fall_detected_100", type := AlertType.FALL_DETECTED,
    level := AlertLevel.CRITICAL, message := "Fall detected",
    patient_id := "demo_patient", timestamp := 100, acknowledged := false,
    escalated := false, channels_used := [], metadata := [] }

end Alerts

/-!
## Theorems settling the claims
-/

open Alerts StateMachine Detection

/-- C1: the claim states that an EMERGENCY alert is always permitted by
`AlertRateLimiter.can_send_alert` regardless of the sliding windows.
The code, however, performs both rate-limit checks before the
emergency-bypass check, so with the per-minute window full (five alerts
recorded 10 seconds ago) an EMERGENCY alert is rejected — contradicting
the source's own comment and reason string ("Emergency alert bypasses
rate limits"). -/
theorem c1_emergency_alert_rate_limited :
    ((limiterBurst.can_send_alert AlertType.EMERGENCY 100).1).1 = false ∧
      limiterBurst.minute_alerts.length = 5 :=
  of_decide_eq_true (by with_unfolding_all rfl)

/-- C2: the claim states that after the persistence window (2
consecutive updates mapping to a lower level) the committed risk level
decreases.  In the code, `_update_risk_state` resets
`risk_state_timer` to 1 before comparing it with
`risk_persistence_window = 2`, so the downward branch can never fire:
after one update with score 0.7 (level HIGH) and two consecutive
updates with score 0 (level LOW), the committed level is still HIGH. -/
theorem c2_risk_level_never_decreases :
    (((FallStateMachine.init.update_risk_state 0.7).update_risk_state
      0).update_risk_state 0).risk_state = "HIGH" :=
  of_decide_eq_true (by with_unfolding_all rfl)

/-- C3: the claim states that from any reachable ALERT configuration
the machine returns to NORMAL once the total window
(confirmation window + 10 further ticks) has elapsed.  The first half
of the claim holds (CONFIRMED_FALL steps to ALERT on the next update),
but `update` never increments `fall_timer` in the ALERT state, so the
`fall_timer > confirmation_window + 10` exit is never reached
(`fall_timer` is frozen at the value it had on confirmation, here 3):
after 21 further neutral ticks the state is still ALERT. -/
theorem c3_alert_state_is_absorbing :
    (run FallStateMachine.init (iSpike :: List.replicate 3 iLying)).state
        = "CONFIRMED_FALL" ∧
      (run FallStateMachine.init
        (iSpike :: (List.replicate 3 iLying ++ [iNeutral]))).state = "ALERT" ∧
      (run FallStateMachine.init
        (iSpike :: (List.replicate 3 iLying ++ List.replicate 21 iNeutral))).state
        = "ALERT" ∧
      (run FallStateMachine.init
        (iSpike :: (List.replicate 3 iLying ++ List.replicate 21 iNeutral))).fall_timer
        = 3 :=
  of_decide_eq_true (by with_unfolding_all rfl)

/-- Helper: `_update_risk_state` only touches the risk-level fields: the
machine's `state`, `fall_timer` and `inactivity_count` pass through
unchanged. -/
theorem update_risk_state_preserves (m : FallStateMachine) (r : ℚ) :
    (m.update_risk_state r).state = m.state ∧
      (m.update_risk_state r).fall_timer = m.fall_timer ∧
      (m.update_risk_state r).inactivity_count = m.inactivity_count := by
  dsimp only [FallStateMachine.update_risk_state]
  split_ifs <;> exact ⟨rfl, rfl, rfl⟩

/-- One `update` in POSSIBLE_FALL under a non-confirming input (not
lying-and-inactive, no post-fall flag): the fall timer advances by one
and the state reverts to NORMAL exactly when the advanced timer
strictly exceeds the confirmation window. -/
theorem update_possible_fall_step (m : FallStateMachine) (i : SMInput)
    (hm : m.state = "POSSIBLE_FALL")
    (h1 : ¬(i.posture = "lying" ∧ i.inactive = true))
    (h2 : i.post_fall_state = false) :
    (m.update i.spike i.posture i.inactive i.post_fall_state i.instability_risk).state =
      (if m.fall_timer + 1 > FallStateMachine.confirmation_window then "NORMAL"
        else "POSSIBLE_FALL") ∧
      (m.update i.spike i.posture i.inactive i.post_fall_state
        i.instability_risk).fall_timer = m.fall_timer + 1 := by
  obtain ⟨hs, hf, hc⟩ := update_risk_state_preserves m i.instability_risk
  dsimp only [FallStateMachine.update]
  rw [hs, hm, hf]
  simp only [h2, FallStateMachine.confirmation_window]
  simp [h1, apply_ite]
  split_ifs <;> omega

/-- Running a list of non-confirming inputs from POSSIBLE_FALL keeps
the machine in POSSIBLE_FALL while the fall timer stays within the
confirmation window, advancing the timer by one per tick. -/
theorem run_possible_fall_aux (l : List SMInput) :
    (∀ i ∈ l, ¬(i.posture = "lying" ∧ i.inactive = true) ∧ i.post_fall_state = false) →
    ∀ m : FallStateMachine, m.state = "POSSIBLE_FALL" →
      m.fall_timer + l.length ≤ FallStateMachine.confirmation_window →
      (run m l).state = "POSSIBLE_FALL" ∧
        (run m l).fall_timer = m.fall_timer + l.length := by
  induction l with
  | nil =>
      intro _ m hm _
      exact ⟨hm, by simp [run]⟩
  | cons i t ih =>
      intro hl m hm hle
      have hi := hl i (List.mem_cons_self i t)
      have hstep := update_possible_fall_step m i hm hi.1 hi.2
      have hnotrev : ¬ (m.fall_timer + 1 > FallStateMachine.confirmation_window) := by
        simp only [List.length_cons] at hle
        omega
      have hs' : (m.update i.spike i.posture i.inactive i.post_fall_state
          i.instability_risk).state = "POSSIBLE_FALL" := by
        rw [hstep.1, if_neg hnotrev]
      have hrun : run m (i :: t) = run (m.update i.spike i.posture i.inactive
          i.post_fall_state i.instability_risk) t := rfl
      have ih' := ih (fun j hj => hl j (List.mem_cons_of_mem i hj)) _ hs' (by
        rw [hstep.2]
        simp only [List.length_cons] at hle
        omega)
      rw [hrun]
      refine ⟨ih'.1, ?_⟩
      rw [ih'.2, hstep.2]
      simp only [List.length_cons]
      omega

/-- C9: from POSSIBLE_FALL with a fresh fall timer, under inputs on
which neither confirmation condition can fire (never lying-and-inactive
and never post-fall), the machine stays in POSSIBLE_FALL for every
number of ticks up to and including the confirmation window of 5 — in
particular on the tick where `fall_timer` equals exactly the window
edge it neither reverts nor confirms — and reverts to NORMAL on the
tick after, when `fall_timer` first strictly exceeds the window. -/
theorem c9_possible_fall_reverts_only_after_window (l : List SMInput)
    (hl : ∀ i ∈ l, ¬(i.posture = "lying" ∧ i.inactive = true) ∧ i.post_fall_state = false)
    (m : FallStateMachine) (hm : m.state = "POSSIBLE_FALL") (hft : m.fall_timer = 0) :
    (l.length ≤ FallStateMachine.confirmation_window →
      (run m l).state = "POSSIBLE_FALL" ∧ (run m l).fall_timer = l.length) ∧
    (l.length = FallStateMachine.confirmation_window + 1 →
      (run m l).state = "NORMAL") := by
  constructor
  · intro hlen
    have h := run_possible_fall_aux l hl m hm (by omega)
    rw [hft] at h
    simpa using h
  · intro hlen
    have hne : l ≠ [] := by
      intro h
      rw [h] at hlen
      simp [FallStateMachine.confirmation_window] at hlen
    obtain ⟨a, b, rfl⟩ : ∃ a b, l = a ++ [b] :=
      ⟨l.dropLast, l.getLast hne, (List.dropLast_append_getLast hne).symm⟩
    have hlena : a.length = FallStateMachine.confirmation_window := by
      simp only [List.length_append, List.length_singleton] at hlen
      omega
    have hla : ∀ i ∈ a, ¬(i.posture = "lying" ∧ i.inactive = true) ∧
        i.post_fall_state = false := fun i hi => hl i (by simp [hi])
    have haux := run_possible_fall_aux a hla m hm (by omega)
    have hb := hl b (by simp)
    have hstep := update_possible_fall_step (run m a) b haux.1 hb.1 hb.2
    have hrunb : run m (a ++ [b]) = (run m a).update b.spike b.posture b.inactive
        b.post_fall_state b.instability_risk := by
      simp [run, List.foldl_append]
    rw [hrunb, hstep.1, if_pos]
    rw [haux.2, hft, hlena]
    omega

/-- Witness for C9: from POSSIBLE_FALL with fresh counters, five
neutral ticks leave the machine in POSSIBLE_FALL and a sixth reverts
it to NORMAL. -/
theorem c9_witness :
    (run pfStart (List.replicate 5 iNeutral)).state = "POSSIBLE_FALL" ∧
      (run pfStart (List.replicate 6 iNeutral)).state = "NORMAL" := by
  have hl5 : ∀ i ∈ List.replicate 5 iNeutral,
      ¬(i.posture = "lying" ∧ i.inactive = true) ∧ i.post_fall_state = false := by
    intro i hi
    rw [List.eq_of_mem_replicate hi]
    exact ⟨by decide, rfl⟩
  have hl6 : ∀ i ∈ List.replicate 6 iNeutral,
      ¬(i.posture = "lying" ∧ i.inactive = true) ∧ i.post_fall_state = false := by
    intro i hi
    rw [List.eq_of_mem_replicate hi]
    exact ⟨by decide, rfl⟩
  constructor
  · exact ((c9_possible_fall_reverts_only_after_window (List.replicate 5 iNeutral) hl5
      pfStart rfl rfl).1 (by decide)).1
  · exact (c9_possible_fall_reverts_only_after_window (List.replicate 6 iNeutral) hl6
      pfStart rfl rfl).2 (by decide)

/-- Looking an alert up after `acknowledge_alert`'s in-place map: the
stored alert comes back with `acknowledged` set. -/
theorem lookup_after_ack_map (s : List (String × Alert))
    (alert_id acknowledged_by : String) (now : ℚ) :
    lookupAlert (s.map (fun p =>
        if p.1 = alert_id then (p.1, setAcknowledged p.2 acknowledged_by now) else p))
      alert_id =
      (lookupAlert s alert_id).map (fun a => setAcknowledged a acknowledged_by now) := by
  induction s with
  | nil => rfl
  | cons p t ih =>
      by_cases h : p.1 = alert_id
      · simp [lookupAlert, List.find?_cons, h]
      · simpa [lookupAlert, List.find?_cons, h] using ih

/-- C5: once `acknowledge_alert` has returned `True` for an active
alert, every scheduled escalation step of that alert whose delay has
not yet expired — every step of its plan with a positive delay, all of
which carry the `not_acknowledged` condition — evaluates its condition
to false when it fires and sends through no channel. -/
theorem c5_acknowledge_cancels_pending_steps (s : List (String × Alert))
    (alert_id acknowledged_by : String) (now : ℚ) (a : Alert)
    (h : lookupAlert s alert_id = some a) :
    (acknowledge_alert s alert_id acknowledged_by now).1 = true ∧
      ∀ step ∈ escalation_rules a.type, step.delay > 0 →
        scheduled_escalation (acknowledge_alert s alert_id acknowledged_by now).2
          alert_id step = [] := by
  have hsome : (lookupAlert s alert_id).isSome := by rw [h]; rfl
  refine ⟨by simp [acknowledge_alert, hsome], ?_⟩
  intro step hstep hd
  generalize hT : a.type = T at hstep
  have hcond : step.condition = some "not_acknowledged" := by
    cases T <;>
      simp only [escalation_rules, List.mem_cons, List.not_mem_nil, or_false] at hstep
    case FALL_DETECTED =>
      rcases hstep with rfl | rfl | rfl | rfl
      · simp at hd
      · rfl
      · rfl
      · rfl
    case EMERGENCY =>
      rcases hstep with rfl | rfl
      · simp at hd
      · rfl
    case HEALTH_ANOMALY =>
      rcases hstep with rfl | rfl
      · simp at hd
      · rfl
    case PRE_FALL_WARNING =>
      subst hstep
      simp at hd
  have hlook := lookup_after_ack_map s alert_id acknowledged_by now
  rw [h] at hlook
  have hs2 : (acknowledge_alert s alert_id acknowledged_by now).2 = s.map (fun p =>
      if p.1 = alert_id then (p.1, setAcknowledged p.2 acknowledged_by now) else p) := by
    simp [acknowledge_alert, hsome]
  rw [hs2]
  unfold scheduled_escalation
  rw [hlook]
  simp [should_escalate, hcond, setAcknowledged]

/-- Witness for C5: acknowledging a concrete active FALL_DETECTED alert
succeeds, and its 60-second escalation step then sends through no
channel. -/
theorem c5_witness :
    (acknowledge_alert [("fall_detected_100", sampleAlert)] "fall_detected_100"
      "guardian" 160).1 = true ∧
      scheduled_escalation
        (acknowledge_alert [("fall_detected_100", sampleAlert)] "fall_detected_100"
          "guardian" 160).2
        "fall_detected_100"
        { delay := 60, channels := [AlertChannel.EMAIL, AlertChannel.WEB_SOCKET],
          condition := some "not_acknowledged" } = [] := by
  have h : lookupAlert [("fall_detected_100", sampleAlert)] "fall_detected_100"
      = some sampleAlert := rfl
  have hmain := c5_acknowledge_cancels_pending_steps
    [("fall_detected_100", sampleAlert)] "fall_detected_100" "guardian" 160 sampleAlert h
  refine ⟨hmain.1, hmain.2 _ ?_ (by norm_num)⟩
  exact List.mem_cons_of_mem _ (List.mem_cons_self _ _)

/-- C7 counterexample: the claim says that, at gravity-scale magnitude
(≈9.8), rotating the acceleration vector from vertical to horizontal
changes the returned posture from standing to lying.  In the code,
`classify_posture` thresholds only the acceleration magnitude and never
looks at its direction, so a purely horizontal 9.8-magnitude vector is
classified standing, the same as a vertical one. -/
theorem c7_counterexample :
    PostureClassifier.classify_posture (98/10) 0 0 0 0 0 = Posture.STANDING ∧
      PostureClassifier.classify_posture 0 0 (98/10) 0 0 0 = Posture.STANDING ∧
      Posture.STANDING ≠ Posture.LYING :=
  of_decide_eq_true (by with_unfolding_all rfl)

/-- C7 amended: `classify_posture` ignores the gravity direction
entirely — whenever the (squared) gyroscope motion magnitude does not
exceed the fall threshold and the (squared) acceleration magnitude
reaches the standing threshold, the result is standing, for every
orientation of the acceleration vector; sitting/lying/unknown arise
only at strictly smaller magnitudes. -/
theorem c7_amended_magnitude_only_classification (ax ay az gx gy gz : ℚ)
    (hmotion : gx ^ 2 + gy ^ 2 + gz ^ 2 ≤ PostureClassifier.fall_threshold ^ 2)
    (hmag : ax ^ 2 + ay ^ 2 + az ^ 2 ≥ PostureClassifier.standing_threshold ^ 2) :
    PostureClassifier.classify_posture ax ay az gx gy gz = Posture.STANDING := by
  unfold PostureClassifier.classify_posture
  rw [if_neg (not_lt.mpr hmotion), if_pos hmag]

/-- Witness for C7 amended: the horizontal 9.8-magnitude vector. -/
theorem c7_witness :
    PostureClassifier.classify_posture (98/10) 0 0 0 0 0 = Posture.STANDING :=
  c7_amended_magnitude_only_classification (98/10) 0 0 0 0 0
    (by norm_num [PostureClassifier.fall_threshold])
    (by norm_num [PostureClassifier.standing_threshold])

/-- Within the cooldown window the threshold detector reports no
fall, whatever the features. -/
theorem detect_fall_in_cooldown (d : ThresholdFallDetector) (f : Features) (now : ℚ)
    (h : now - d.last_fall_time < ThresholdFallDetector.fall_cooldown) :
    (d.detect_fall f now).1.1 = false := by
  simp only [ThresholdFallDetector.detect_fall]
  rw [if_pos h]

/-- Helper: `detect_fall` reports a fall exactly when the cooldown has passed
and the indicator-weighted confidence (0.4 impact + 0.3 orientation +
0.3 inactivity) reaches 0.6. -/
theorem detect_fall_true_iff (d : ThresholdFallDetector) (f : Features) (now : ℚ) :
    (d.detect_fall f now).1.1 = true ↔
      (¬ now - d.last_fall_time < ThresholdFallDetector.fall_cooldown ∧
        (if ThresholdFallDetector.check_impact f then (0.4 : ℚ) else 0) +
          (if ThresholdFallDetector.check_orientation_change f then (0.3 : ℚ) else 0) +
          (if ThresholdFallDetector.check_inactivity f then (0.3 : ℚ) else 0) ≥ 0.6) := by
  simp only [ThresholdFallDetector.detect_fall]
  set c : ℚ := (if ThresholdFallDetector.check_impact f then (0.4 : ℚ) else 0) +
    (if ThresholdFallDetector.check_orientation_change f then (0.3 : ℚ) else 0) +
    (if ThresholdFallDetector.check_inactivity f then (0.3 : ℚ) else 0) with hc
  by_cases h1 : now - d.last_fall_time < ThresholdFallDetector.fall_cooldown
  · rw [if_pos h1]
    simp [h1]
  · rw [if_neg h1]
    by_cases h2 : c ≥ (0.6 : ℚ)
    · rw [if_pos h2]
      simp [h1, h2]
    · rw [if_neg h2]
      simp [h1, h2]

/-- A detection updates `last_fall_time` to the detection time. -/
theorem detect_fall_sets_last_fall_time (d : ThresholdFallDetector) (f : Features)
    (now : ℚ) (hdet : (d.detect_fall f now).1.1 = true) :
    (d.detect_fall f now).2.last_fall_time = now := by
  simp only [ThresholdFallDetector.detect_fall] at hdet ⊢
  set c : ℚ := (if ThresholdFallDetector.check_impact f then (0.4 : ℚ) else 0) +
    (if ThresholdFallDetector.check_orientation_change f then (0.3 : ℚ) else 0) +
    (if ThresholdFallDetector.check_inactivity f then (0.3 : ℚ) else 0) with hc
  by_cases h1 : now - d.last_fall_time < ThresholdFallDetector.fall_cooldown
  · rw [if_pos h1] at hdet
    simp at hdet
  · rw [if_neg h1] at hdet ⊢
    by_cases h2 : c ≥ (0.6 : ℚ)
    · rw [if_pos h2]
    · rw [if_neg h2] at hdet
      simp at hdet

/-- Indicator confidence reaches 0.6 only when at least two of the
three indicators fire. -/
theorem confidence_requires_two_indicators (f : Features)
    (h : (if ThresholdFallDetector.check_impact f then (0.4 : ℚ) else 0) +
        (if ThresholdFallDetector.check_orientation_change f then (0.3 : ℚ) else 0) +
        (if ThresholdFallDetector.check_inactivity f then (0.3 : ℚ) else 0) ≥ 0.6) :
    (ThresholdFallDetector.check_impact f = true ∧
        ThresholdFallDetector.check_orientation_change f = true) ∨
      (ThresholdFallDetector.check_impact f = true ∧
        ThresholdFallDetector.check_inactivity f = true) ∨
      (ThresholdFallDetector.check_orientation_change f = true ∧
        ThresholdFallDetector.check_inactivity f = true) := by
  cases himp : ThresholdFallDetector.check_impact f <;>
    cases hori : ThresholdFallDetector.check_orientation_change f <;>
      cases hina : ThresholdFallDetector.check_inactivity f <;>
        rw [himp, hori, hina] at h <;>
        norm_num at h <;>
        simp [himp, hori, hina]

/-- C10: the threshold detector reports a fall only when at least two
of its three indicators fire (impact 0.4, orientation change 0.3,
inactivity 0.3, detection bar 0.6) — so a single indicator, however
large the impact, never triggers it — a detection records its time, and
every call within the 10-second cooldown of the recorded detection time
returns no fall. -/
theorem c10_two_indicators_and_cooldown (d d' : ThresholdFallDetector)
    (f f2 : Features) (now t2 : ℚ) :
    ((d.detect_fall f now).1.1 = true →
        ((ThresholdFallDetector.check_impact f = true ∧
            ThresholdFallDetector.check_orientation_change f = true) ∨
          (ThresholdFallDetector.check_impact f = true ∧
            ThresholdFallDetector.check_inactivity f = true) ∨
          (ThresholdFallDetector.check_orientation_change f = true ∧
            ThresholdFallDetector.check_inactivity f = true)) ∧
        (d.detect_fall f now).2.last_fall_time = now) ∧
      (t2 - d'.last_fall_time < ThresholdFallDetector.fall_cooldown →
        (d'.detect_fall f2 t2).1.1 = false) := by
  constructor
  · intro hdet
    have hiff := (detect_fall_true_iff d f now).1 hdet
    exact ⟨confidence_requires_two_indicators f hiff.2,
      detect_fall_sets_last_fall_time d f now hdet⟩
  · intro hcd
    exact detect_fall_in_cooldown d' f2 t2 hcd

/-- Witness for C10: on features with impact and orientation change
firing, the detector (out of cooldown) reports a fall via two
indicators, and a second call 5 seconds after the recorded detection is
suppressed by the cooldown. -/
theorem c10_witness :
    (ThresholdFallDetector.init.detect_fall sampleFallFeatures 100).1.1 = true ∧
      ((ThresholdFallDetector.check_impact sampleFallFeatures = true ∧
          ThresholdFallDetector.check_orientation_change sampleFallFeatures = true) ∨
        (ThresholdFallDetector.check_impact sampleFallFeatures = true ∧
          ThresholdFallDetector.check_inactivity sampleFallFeatures = true) ∨
        (ThresholdFallDetector.check_orientation_change sampleFallFeatures = true ∧
          ThresholdFallDetector.check_inactivity sampleFallFeatures = true)) ∧
      (({ last_fall_time := 100 } : ThresholdFallDetector).detect_fall
        sampleFallFeatures 105).1.1 = false := by
  have hdet : (ThresholdFallDetector.init.detect_fall sampleFallFeatures 100).1.1 = true :=
    of_decide_eq_true (by with_unfolding_all rfl)
  have hmain := c10_two_indicators_and_cooldown ThresholdFallDetector.init
    { last_fall_time := 100 } sampleFallFeatures sampleFallFeatures 100 105
  exact ⟨hdet, (hmain.1 hdet).1,
    hmain.2 (by norm_num [ThresholdFallDetector.fall_cooldown])⟩

/-- Post-fall validation's confidence adjustment is nonnegative and
capped at +0.2 (20% of the validation confidence). -/
theorem validate_fall_adjustment_bounds (f : Features) :
    0 ≤ (PostFallValidator.validate_fall f).2 ∧
      (PostFallValidator.validate_fall f).2 ≤ 0.2 := by
  simp only [PostFallValidator.validate_fall]
  split_ifs <;> norm_num

/-- The combined detection flag holds exactly when some layer detected
with (zeroed-if-undetected) confidence above 0.5. -/
theorem combine_detections_detected_iff (td md : Bool) (tc mc : ℚ) :
    (MultiLayerFallDetector.combine_detections td tc md mc).1 = true ↔
      ((td = true ∧ (if td = true then tc else 0) > 0.5) ∨
        (md = true ∧ (if md = true then mc else 0) > 0.5)) := by
  simp only [MultiLayerFallDetector.combine_detections, decide_eq_true_eq]

/-- The combined pre-validation confidence is the fixed 0.4/0.6
weighting of the zeroed-if-undetected layer confidences. -/
theorem combine_detections_confidence (td md : Bool) (tc mc : ℚ) :
    (MultiLayerFallDetector.combine_detections td tc md mc).2 =
      (if td = true then tc else 0) * 0.4 + (if md = true then mc else 0) * 0.6 := rfl

/-- C6 amended: the final decision is NOT a pure disjunction.  A fall
is reported only when some individual layer detects with confidence
above 0.5 AND the validation-adjusted weighted confidence reaches 0.6;
the weighted 0.4/0.6 confidence clearing 0.6 by itself is sufficient
(it forces a layer above 0.5), the post-validation contribution is
additive and bounded by +0.2, and the reported confidence always lies
in [0, 1]. -/
theorem c6_amended_combination_rule (td md : Bool) (tc mc : ℚ) (f : Features)
    (htc0 : 0 ≤ tc) (htc1 : tc ≤ 1) (hmc0 : 0 ≤ mc) (hmc1 : mc ≤ 1) :
    ((if td = true then tc else 0) * 0.4 + (if md = true then mc else 0) * 0.6 ≥ 0.6 →
        (MultiLayerFallDetector.process_features_combine td tc md mc f).1 = true) ∧
      ((MultiLayerFallDetector.process_features_combine td tc md mc f).1 = true →
        ((td = true ∧ tc > 0.5) ∨ (md = true ∧ mc > 0.5))) ∧
      (0 ≤ (PostFallValidator.validate_fall f).2 ∧
        (PostFallValidator.validate_fall f).2 ≤ 0.2) ∧
      (0 ≤ (MultiLayerFallDetector.process_features_combine td tc md mc f).2 ∧
        (MultiLayerFallDetector.process_features_combine td tc md mc f).2 ≤ 1) := by
  obtain ⟨hv0, hv2⟩ := validate_fall_adjustment_bounds f
  have htz0 : (0 : ℚ) ≤ (if td = true then tc else 0) := by split_ifs <;> simp [htc0]
  have htz1 : (if td = true then tc else 0) ≤ 1 := by split_ifs <;> simp [htc1]
  have hmz0 : (0 : ℚ) ≤ (if md = true then mc else 0) := by split_ifs <;> simp [hmc0]
  have hmz1 : (if md = true then mc else 0) ≤ 1 := by split_ifs <;> simp [hmc1]
  have hW0 : 0 ≤ (MultiLayerFallDetector.combine_detections td tc md mc).2 := by
    rw [combine_detections_confidence]
    nlinarith [htz0, hmz0]
  have hW1 : (MultiLayerFallDetector.combine_detections td tc md mc).2 ≤ 1 := by
    rw [combine_detections_confidence]
    nlinarith [htz1, hmz1, htz0, hmz0]
  -- the confidence after the (conditional) validation adjustment
  have hcc : ∀ q : ℚ, q = (if (MultiLayerFallDetector.combine_detections td tc md mc).1 = true
        then (if (PostFallValidator.validate_fall f).1 = true
          then min 1 ((MultiLayerFallDetector.combine_detections td tc md mc).2 +
            (PostFallValidator.validate_fall f).2)
          else (MultiLayerFallDetector.combine_detections td tc md mc).2)
        else (MultiLayerFallDetector.combine_detections td tc md mc).2) →
      0 ≤ q ∧ q ≤ 1 ∧ ((MultiLayerFallDetector.combine_detections td tc md mc).2 ≥ 0.6 → q ≥ 0.6) := by
    intro q hq
    subst hq
    split_ifs with h1 h2
    · refine ⟨le_min (by norm_num) (by linarith), min_le_left _ _, fun hW => ?_⟩
      exact le_min (by norm_num) (by linarith)
    · exact ⟨hW0, hW1, fun hW => hW⟩
    · exact ⟨hW0, hW1, fun hW => hW⟩
  obtain ⟨hq0, hq1, hq6⟩ := hcc _ rfl
  have hresult : MultiLayerFallDetector.process_features_combine td tc md mc f =
      if ((MultiLayerFallDetector.combine_detections td tc md mc).1 = true ∧
          (if (MultiLayerFallDetector.combine_detections td tc md mc).1 = true
            then (if (PostFallValidator.validate_fall f).1 = true
              then min 1 ((MultiLayerFallDetector.combine_detections td tc md mc).2 +
                (PostFallValidator.validate_fall f).2)
              else (MultiLayerFallDetector.combine_detections td tc md mc).2)
            else (MultiLayerFallDetector.combine_detections td tc md mc).2) ≥ 0.6)
        then (true, (if (MultiLayerFallDetector.combine_detections td tc md mc).1 = true
            then (if (PostFallValidator.validate_fall f).1 = true
              then min 1 ((MultiLayerFallDetector.combine_detections td tc md mc).2 +
                (PostFallValidator.validate_fall f).2)
              else (MultiLayerFallDetector.combine_detections td tc md mc).2)
            else (MultiLayerFallDetector.combine_detections td tc md mc).2))
        else (false, 1 - (if (MultiLayerFallDetector.combine_detections td tc md mc).1 = true
            then (if (PostFallValidator.validate_fall f).1 = true
              then min 1 ((MultiLayerFallDetector.combine_detections td tc md mc).2 +
                (PostFallValidator.validate_fall f).2)
              else (MultiLayerFallDetector.combine_detections td tc md mc).2)
            else (MultiLayerFallDetector.combine_detections td tc md mc).2)) := rfl
  refine ⟨?_, ?_, ⟨hv0, hv2⟩, ?_⟩
  · intro hW
    have hWge : (MultiLayerFallDetector.combine_detections td tc md mc).2 ≥ 0.6 := by
      rw [combine_detections_confidence]
      exact hW
    have hD : (MultiLayerFallDetector.combine_detections td tc md mc).1 = true := by
      rw [combine_detections_detected_iff]
      by_contra hn
      push_neg at hn
      obtain ⟨h1, h2⟩ := hn
      have htzle : (if td = true then tc else 0) ≤ 0.5 := by
        split_ifs with h
        · exact le_of_not_lt (fun hlt => absurd (h1 h) (by simpa [h] using not_not.mpr hlt))
        · norm_num
      have hmzle : (if md = true then mc else 0) ≤ 0.5 := by
        split_ifs with h
        · exact le_of_not_lt (fun hlt => absurd (h2 h) (by simpa [h] using not_not.mpr hlt))
        · norm_num
      nlinarith [htzle, hmzle]
    rw [hresult, if_pos ⟨hD, hq6 hWge⟩]
  · intro hfinal
    rw [hresult] at hfinal
    by_cases hcond : ((MultiLayerFallDetector.combine_detections td tc md mc).1 = true ∧
        (if (MultiLayerFallDetector.combine_detections td tc md mc).1 = true
          then (if (PostFallValidator.validate_fall f).1 = true
            then min 1 ((MultiLayerFallDetector.combine_detections td tc md mc).2 +
              (PostFallValidator.validate_fall f).2)
            else (MultiLayerFallDetector.combine_detections td tc md mc).2)
          else (MultiLayerFallDetector.combine_detections td tc md mc).2) ≥ 0.6)
    · have hD := hcond.1
      rw [combine_detections_detected_iff] at hD
      rcases hD with ⟨ht, htc5⟩ | ⟨hm, hmc5⟩
      · exact Or.inl ⟨ht, by simpa [ht] using htc5⟩
      · exact Or.inr ⟨hm, by simpa [hm] using hmc5⟩
    · rw [if_neg hcond] at hfinal
      simp at hfinal
  · rw [hresult]
    by_cases hcond : ((MultiLayerFallDetector.combine_detections td tc md mc).1 = true ∧
        (if (MultiLayerFallDetector.combine_detections td tc md mc).1 = true
          then (if (PostFallValidator.validate_fall f).1 = true
            then min 1 ((MultiLayerFallDetector.combine_detections td tc md mc).2 +
              (PostFallValidator.validate_fall f).2)
            else (MultiLayerFallDetector.combine_detections td tc md mc).2)
          else (MultiLayerFallDetector.combine_detections td tc md mc).2) ≥ 0.6)
    · rw [if_pos hcond]
      exact ⟨hq0, hq1⟩
    · rw [if_neg hcond]
      dsimp only
      constructor <;> linarith [hq0, hq1]

/-- C6 counterexample: the claim says a fall is reported whenever
either individual layer alone exceeds 0.5 confidence.  With only the
scored layer detecting at confidence 0.6 (> 0.5) and even maximal
post-fall validation, the weighted confidence is 0.6·0.6 + 0.2 = 0.56,
below the 0.6 bar, and the final decision is "no_fall". -/
theorem c6_counterexample :
    (MultiLayerFallDetector.process_features_combine false 0 true (3/5)
      sampleValidationFeatures).1 = false ∧ (3/5 : ℚ) > 0.5 :=
  of_decide_eq_true (by with_unfolding_all rfl)

/-- Witness for C6 amended: with the scored layer at confidence 1 the
weighted confidence clears the 0.6 bar and a fall is reported. -/
theorem c6_witness :
    (MultiLayerFallDetector.process_features_combine false 0 true 1
      sampleValidationFeatures).1 = true := by
  have h := c6_amended_combination_rule false true 0 1 sampleValidationFeatures
    (le_refl 0) (by norm_num) (by norm_num) (le_refl 1)
  exact h.1 (by norm_num)

/-- C8 counterexample: the claim says the adaptive multiplier is nudged
by ±10%.  After three recorded NO_ACTION decisions (zero recent false
positives) the factor 1.0 becomes 1.0·0.95 = 0.95 — a 5% downward
nudge, not the claimed 10% (which would give 0.9), and not an upward
nudge or no change. -/
theorem c8_counterexample :
    DecisionEngine.adjust_thresholds
        [DecisionType.NO_ACTION, DecisionType.NO_ACTION, DecisionType.NO_ACTION] 1
        = 0.95 ∧
      (0.95 : ℚ) ≠ 1 - 1 / 10 ∧ (0.95 : ℚ) ≠ 1 + 1 / 10 ∧ (0.95 : ℚ) ≠ 1 :=
  of_decide_eq_true (by with_unfolding_all rfl)

/-- C8 amended: the engine fuses
`combined = min 1 ((0.6·mlConfidence + 0.4·ruleConfidence) · factor)`
with `ruleConfidence` the weighted mean confidence of triggered rules;
the factor starts at 1.0 and, acting on the last up-to-5 recorded
decisions once at least 3 exist, is multiplied by 1.1 (capped at 2.0)
on two or more recent FALSE_POSITIVEs and by 0.95 — a 5%, not 10%,
downward nudge — (floored at 0.5) on zero recent FALSE_POSITIVEs; it
always remains within [0.5, 2.0]. -/
theorem c8_amended_fusion_and_adjustment (ml factor : ℚ) (rules : List EvaluatedRule)
    (recent : List DecisionType) (hf : 1 / 2 ≤ factor ∧ factor ≤ 2) :
    (DecisionEngine.combine_evidence ml rules factor).1 =
        min 1 ((ml * DecisionEngine.ml_weight +
          DecisionEngine.rule_confidence_of rules * DecisionEngine.rule_weight) *
            factor) ∧
      DecisionEngine.initial_threshold_adjustment_factor = 1 ∧
      (1 / 2 ≤ DecisionEngine.adjust_thresholds recent factor ∧
        DecisionEngine.adjust_thresholds recent factor ≤ 2) ∧
      ((recent.drop (recent.length - 5)).length ≥ 3 →
        ((recent.drop (recent.length - 5)).filter
            (fun d => d = DecisionType.FALSE_POSITIVE)).length ≥ 2 →
        DecisionEngine.adjust_thresholds recent factor = min 2 (factor * 1.1)) ∧
      ((recent.drop (recent.length - 5)).length ≥ 3 →
        ((recent.drop (recent.length - 5)).filter
            (fun d => d = DecisionType.FALSE_POSITIVE)).length = 0 →
        DecisionEngine.adjust_thresholds recent factor = max 0.5 (factor * 0.95)) := by
  obtain ⟨hf0, hf2⟩ := hf
  refine ⟨rfl, rfl, ?_, ?_, ?_⟩
  · simp only [DecisionEngine.adjust_thresholds]
    split_ifs with h1 h2 h3
    · exact ⟨le_min (by norm_num) (by linarith), min_le_left _ _⟩
    · exact ⟨le_trans (by norm_num) (le_max_left _ _),
        max_le (by norm_num) (by linarith)⟩
    · exact ⟨hf0, hf2⟩
    · exact ⟨hf0, hf2⟩
  · intro h3 hfp
    simp only [DecisionEngine.adjust_thresholds]
    rw [if_pos h3, if_pos hfp]
  · intro h3 hfp
    simp only [DecisionEngine.adjust_thresholds]
    rw [if_pos h3, if_neg (by omega), if_pos hfp]

/-- Witness for C8 amended: three NO_ACTION decisions and factor 1.0
give the 0.95-floored-at-0.5 downward nudge, inside [0.5, 2.0]. -/
theorem c8_witness :
    DecisionEngine.adjust_thresholds
        [DecisionType.NO_ACTION, DecisionType.NO_ACTION, DecisionType.NO_ACTION] 1
        = max 0.5 (1 * 0.95) ∧
      (1 / 2 ≤ DecisionEngine.adjust_thresholds
          [DecisionType.NO_ACTION, DecisionType.NO_ACTION, DecisionType.NO_ACTION] 1 ∧
        DecisionEngine.adjust_thresholds
          [DecisionType.NO_ACTION, DecisionType.NO_ACTION, DecisionType.NO_ACTION] 1
          ≤ 2) := by
  have h := c8_amended_fusion_and_adjustment 0 1 []
    [DecisionType.NO_ACTION, DecisionType.NO_ACTION, DecisionType.NO_ACTION]
    ⟨by norm_num, by norm_num⟩
  exact ⟨h.2.2.2.2 (by decide) (by decide), h.2.2.1⟩

/-- Helper: `appendMax` keeps the deque's length at `min (old+1) maxlen`. -/
theorem appendMax_length {α : Type} (n : ℕ) (xs : List α) (x : α) :
    (appendMax n xs x).length = min (xs.length + 1) n := by
  simp [appendMax]
  omega

/-- Helper: `_track_posture_transitions` does not touch the magnitude buffer. -/
theorem track_posture_transitions_magnitude_buffer (fe : FeatureExtractor)
    (cp : String) (ts : ℚ) :
    (FeatureExtractor.track_posture_transitions fe cp ts).magnitude_buffer =
      fe.magnitude_buffer := by
  simp only [FeatureExtractor.track_posture_transitions]
  split_ifs <;> rfl

/-- Helper: `_track_inactivity` does not touch the magnitude buffer. -/
theorem track_inactivity_magnitude_buffer (fe : FeatureExtractor) (b : Bool) (ts : ℚ) :
    (FeatureExtractor.track_inactivity fe b ts).magnitude_buffer =
      fe.magnitude_buffer := by
  simp only [FeatureExtractor.track_inactivity]
  split <;> split <;> rfl

/-- One `update` appends exactly one magnitude to the sliding buffer
(and always returns a `FeatureVector` — the function has no not-ready
branch). -/
theorem update_magnitude_buffer (sqrtQ : ℚ → ℚ) (fe : FeatureExtractor)
    (ax ay az gx gy gz ts now : ℚ) :
    (fe.update sqrtQ ax ay az gx gy gz ts now).2.magnitude_buffer =
      appendMax fe.window_size fe.magnitude_buffer (sqrtQ (ax ^ 2 + ay ^ 2 + az ^ 2)) := by
  simp only [FeatureExtractor.update]
  rw [track_inactivity_magnitude_buffer, track_posture_transitions_magnitude_buffer]
  split <;> rfl

/-- C4 counterexample: the claim says that with fewer samples than the
window capacity the extractor reports features as unavailable rather
than returning a vector of zeroed or partial-window statistics.  After
a single sample (1 < window_size = 50) `update` returns a
`FeatureVector` with `magnitude_std = 0` and `magnitude_range = 0`, and
after only 10 samples (still < 50) `get_current_features` already
returns a vector instead of `None`. -/
theorem c4_counterexample :
    ((FeatureExtractor.init 50 10).update sqrt0 3 0 4 0 0 0 0 0).1.magnitude_std = 0 ∧
      ((FeatureExtractor.init 50 10).update sqrt0 3 0 4 0 0 0 0 0).1.magnitude_range = 0 ∧
      ((FeatureExtractor.init 50 10).update sqrt0 3 0 4 0 0 0 0
        0).2.magnitude_buffer.length = 1 ∧
      (FeatureExtractor.init 50 10).window_size = 50 ∧
      (feedConst sqrt0 (FeatureExtractor.init 50 10) 10).magnitude_buffer.length = 10 ∧
      ((feedConst sqrt0 (FeatureExtractor.init 50 10) 10).get_current_features sqrt0
        20).1.isSome = true :=
  of_decide_eq_true (by with_unfolding_all rfl)

/-- C4 amended: `update` always constructs and returns a
`FeatureVector`, appending one magnitude per call up to the window
capacity; only `get_current_features` reports unavailability, and it
returns `None` exactly when fewer than 10 samples — a hard-coded
constant independent of `window_size` — are buffered. -/
theorem c4_amended_readiness (sqrtQ : ℚ → ℚ) (fe : FeatureExtractor)
    (ax ay az gx gy gz ts now : ℚ) :
    (fe.accel_buffer ≠ [] → fe.gyro_buffer ≠ [] →
        ((fe.get_current_features sqrtQ now).1 = none ↔
          fe.magnitude_buffer.length < 10)) ∧
      (fe.update sqrtQ ax ay az gx gy gz ts now).2.magnitude_buffer.length =
        min (fe.magnitude_buffer.length + 1) fe.window_size := by
  constructor
  · intro hacc hgyro
    unfold FeatureExtractor.get_current_features
    by_cases h : fe.magnitude_buffer.length < 10
    · rw [if_pos h]
      simp [h]
    · rw [if_neg h]
      obtain ⟨⟨ax', ay', az'⟩, hp⟩ :=
        Option.isSome_iff_exists.mp (List.getLast?_isSome.mpr hacc)
      obtain ⟨⟨gx', gy', gz'⟩, hq⟩ :=
        Option.isSome_iff_exists.mp (List.getLast?_isSome.mpr hgyro)
      rw [hp, hq]
      simp [h]
  · rw [update_magnitude_buffer, appendMax_length]

/-- Witness for C4 amended: the 10-sample extractor state reports
features as available, and a single update from the fresh extractor
grows the magnitude buffer to one sample. -/
theorem c4_witness :
    ((feedConst sqrt0 (FeatureExtractor.init 50 10) 10).get_current_features sqrt0
        20).1 ≠ none ∧
      ((FeatureExtractor.init 50 10).update sqrt0 3 0 4 0 0 0 0
        0).2.magnitude_buffer.length =
        min ((FeatureExtractor.init 50 10).magnitude_buffer.length + 1)
          (FeatureExtractor.init 50 10).window_size := by
  have h := c4_amended_readiness sqrt0 (feedConst sqrt0 (FeatureExtractor.init 50 10) 10)
    3 0 4 0 0 0 0 20
  have h2 := c4_amended_readiness sqrt0 (FeatureExtractor.init 50 10) 3 0 4 0 0 0 0 0
  constructor
  · intro hnone
    have hlt := (h.1 (of_decide_eq_true (by with_unfolding_all rfl))
      (of_decide_eq_true (by with_unfolding_all rfl))).mp hnone
    have hlen : (feedConst sqrt0 (FeatureExtractor.init 50 10)
        10).magnitude_buffer.length = 10 :=
      of_decide_eq_true (by with_unfolding_all rfl)
    omega
  · exact h2.2
